import Mathlib

/-!
Shallow embedding of the BIP300 wallet service (src/services/bip300.ts together
with the types in src/types/blockchain.ts).  The TypeScript class keeps three
mutable fields (network, sidechains, withdrawalBundles); here the class becomes
the structure `BIP300Service` and every method becomes a function from the
service state (and the method's arguments) to a pair of the returned
`BlockchainResponse` and the resulting service state.  The TS responses
`{ success: true, data }` / `{ success: false, error }` become the two
constructors of `BlockchainResponse`.  TS numbers are embedded as `Int`
(none of the arithmetic in the file can overflow a double for the values the
claims concern), hashes and transaction ids as `String`.
-/

/-- BitcoinNetwork enum from src/types/blockchain.ts. -/
inductive BitcoinNetwork where
  | mainnet
  | testnet
  | regtest
deriving Repr, DecidableEq

/-- The ctip field of SidechainInfo: `{ txid, vout }`. -/
structure Ctip where
  txid : String
  vout : Int
deriving Repr, DecidableEq

/-- SidechainInfo from src/types/blockchain.ts (the optional activationStatus
field is never set or read by the service and is omitted). -/
structure SidechainInfo where
  escrowNumber : Int
  version : Int
  name : String
  description : String
  tarballHash : String
  gitCommitHash : String
  isActive : Bool
  ctip : Ctip
deriving Repr, DecidableEq

/-- WithdrawalBundle from src/types/blockchain.ts: the D2 withdrawal-list
entry.  Note the record carries no state field: every stored bundle is a
plain (sidechainNumber, bundleHash, workScore, blocksRemaining) tuple. -/
structure WithdrawalBundle where
  sidechainNumber : Int
  bundleHash : String
  workScore : Int
  blocksRemaining : Int
deriving Repr, DecidableEq

/-- BlockchainResponse from src/types/blockchain.ts: `ok d` embeds
`{ success: true, data: d }` and `err m` embeds `{ success: false, error: m }`
(the optional `code` field is never produced by the BIP300 service). -/
inductive BlockchainResponse (α : Type) where
  | ok (data : α)
  | err (error : String)
deriving Repr, DecidableEq

/-- success flag of a response, matching the TS `success` field. -/
def BlockchainResponse.isOk {α : Type} : BlockchainResponse α → Bool
  | .ok _ => true
  | .err _ => false

/-- A response is structured when it is either a success carrying data or a
failure carrying a non-empty error message. -/
def BlockchainResponse.structured {α : Type} : BlockchainResponse α → Bool
  | .ok _ => true
  | .err m => !(m == "")

/-- The mutable fields of the TS class BIP300Service. -/
structure BIP300Service where
  network : BitcoinNetwork
  sidechains : List SidechainInfo
  withdrawalBundles : List WithdrawalBundle
deriving Repr, DecidableEq

namespace BIP300Service

/-- The mock sidechain list installed by initializeMockData. -/
def mockSidechains : List SidechainInfo :=
  [ { escrowNumber := 0, version := 1, name := "BitNames",
      description := "Own one username that you use everywhere — replaces DNS, logging in, and email",
      tarballHash := "0000000000000000000000000000000000000000000000000000000000000000",
      gitCommitHash := "0000000000000000000000000000000000000000",
      isActive := true,
      ctip := { txid := "7ea0d7c5fa0a5a5c1b5f2c8209d90b0cc459450c1ad025680bd7861ed970379c", vout := 0 } },
    { escrowNumber := 1, version := 1, name := "BitAssets",
      description := "A sidechain for issuing Bit-Art (NFTs) and digital assets (ICOs, tokens)",
      tarballHash := "0000000000000000000000000000000000000000000000000000000000000000",
      gitCommitHash := "0000000000000000000000000000000000000000",
      isActive := true,
      ctip := { txid := "8fa1d8c6fb1b6b6c2c6f3c9d0a90b1cc4694a1c2ad026771bd7972fe981479d", vout := 0 } },
    { escrowNumber := 2, version := 1, name := "zSide",
      description := "A zCash clone, for privacy",
      tarballHash := "0000000000000000000000000000000000000000000000000000000000000000",
      gitCommitHash := "0000000000000000000000000000000000000000",
      isActive := true,
      ctip := { txid := "9gb2e9d7fc2c7c7d3d7f4dad1a91b2dd5795b2d3be137862ce8983gf992580e", vout := 0 } },
    { escrowNumber := 3, version := 1, name := "Thunder",
      description := "A high performance largeblock sidechain",
      tarballHash := "0000000000000000000000000000000000000000000000000000000000000000",
      gitCommitHash := "0000000000000000000000000000000000000000",
      isActive := true,
      ctip := { txid := "agc3fad8gd3d8d8e4e8gadad2a92c3ee6896c3e4cf248963df9a94hga93691f", vout := 0 } } ]

/-- The mock withdrawal-bundle list installed by initializeMockData. -/
def mockWithdrawalBundles : List WithdrawalBundle :=
  [ { sidechainNumber := 0,
      bundleHash := "0000000000000000000000000000000000000000000000000000000000000001",
      workScore := 5000, blocksRemaining := 10000 },
    { sidechainNumber := 2,
      bundleHash := "0000000000000000000000000000000000000000000000000000000000000002",
      workScore := 8000, blocksRemaining := 8000 } ]

/-- The state of the exported singleton right after the constructor ran
(network defaults to TESTNET, then initializeMockData fills both lists). -/
def bip300Service : BIP300Service :=
  { network := .testnet
    sidechains := mockSidechains
    withdrawalBundles := mockWithdrawalBundles }

/-- setNetwork: overwrites the network field, returns nothing. -/
def setNetwork (self : BIP300Service) (network : BitcoinNetwork) :
    Unit × BIP300Service :=
  ((), { self with network := network })

/-- getSidechains: returns the stored sidechain list. -/
def getSidechains (self : BIP300Service) :
    BlockchainResponse (List SidechainInfo) × BIP300Service :=
  (.ok self.sidechains, self)

/-- getSidechain: find by escrow number, not-found error otherwise. -/
def getSidechain (self : BIP300Service) (escrowNumber : Int) :
    BlockchainResponse SidechainInfo × BIP300Service :=
  match self.sidechains.find? (fun sc => sc.escrowNumber == escrowNumber) with
  | none =>
      (.err ("Sidechain with escrow number " ++ toString escrowNumber ++ " not found"), self)
  | some sidechain => (.ok sidechain, self)

/-- getWithdrawalBundles: returns the stored bundle list. -/
def getWithdrawalBundles (self : BIP300Service) :
    BlockchainResponse (List WithdrawalBundle) × BIP300Service :=
  (.ok self.withdrawalBundles, self)

/-- getWithdrawalBundlesForSidechain: filter by sidechainNumber. -/
def getWithdrawalBundlesForSidechain (self : BIP300Service) (sidechainNumber : Int) :
    BlockchainResponse (List WithdrawalBundle) × BIP300Service :=
  (.ok (self.withdrawalBundles.filter (fun bundle => bundle.sidechainNumber == sidechainNumber)),
   self)

/-- createDepositTransaction (M5): checks that the sidechain exists via
getSidechain, propagating its error; otherwise returns the mock txid.
amount and feeRate are accepted and unused, as in the source. -/
def createDepositTransaction (self : BIP300Service)
    (sidechainNumber : Int) (amount : Int) (feeRate : Int) :
    BlockchainResponse String × BIP300Service :=
  match (self.getSidechain sidechainNumber).1 with
  | .err e => (.err e, self)
  | .ok _ =>
      (.ok "7ea0d7c5fa0a5a5c1b5f2c8209d90b0cc459450c1ad025680bd7861ed970379c", self)

/-- createWithdrawalBundleProposal (M3): unconditionally pushes a new bundle
with workScore 1 ("Initial ACK score is 1") and blocksRemaining 26299 onto
the withdrawal list and reports success.  The source performs no sidechain
lookup, no duplicate check and touches no existing bundle. -/
def createWithdrawalBundleProposal (self : BIP300Service)
    (sidechainNumber : Int) (bundleHash : String) :
    BlockchainResponse Bool × BIP300Service :=
  (.ok true,
   { self with withdrawalBundles :=
       self.withdrawalBundles ++
         [{ sidechainNumber := sidechainNumber, bundleHash := bundleHash,
            workScore := 1, blocksRemaining := 26299 }] })

/-- In-place update of the bundle at a given index, adding ackCount to its
workScore: the embedding of
`this.withdrawalBundles[bundleIndex].workScore += ackCount`. -/
def addAckAt : List WithdrawalBundle → Nat → Int → List WithdrawalBundle
  | [], _, _ => []
  | b :: bs, 0, ackCount => { b with workScore := b.workScore + ackCount } :: bs
  | b :: bs, i + 1, ackCount => b :: addAckAt bs i ackCount

/-- simulateAckWithdrawalBundle (M4): findIndex by bundle hash; not-found
error when absent, otherwise adds ackCount to that bundle's workScore. -/
def simulateAckWithdrawalBundle (self : BIP300Service)
    (bundleHash : String) (ackCount : Int) :
    BlockchainResponse Bool × BIP300Service :=
  match self.withdrawalBundles.findIdx? (fun bundle => bundle.bundleHash == bundleHash) with
  | none =>
      (.err ("Withdrawal bundle with hash " ++ bundleHash ++ " not found"), self)
  | some bundleIndex =>
      (.ok true,
       { self with withdrawalBundles := addAckAt self.withdrawalBundles bundleIndex ackCount })

/-- createWithdrawalTransaction (M6): find by hash; not-found error when
absent; insufficient-ACKs error while workScore < 13150; mock txid
otherwise. -/
def createWithdrawalTransaction (self : BIP300Service) (bundleHash : String) :
    BlockchainResponse String × BIP300Service :=
  match self.withdrawalBundles.find? (fun bundle => bundle.bundleHash == bundleHash) with
  | none =>
      (.err ("Withdrawal bundle with hash " ++ bundleHash ++ " not found"), self)
  | some bundle =>
      if bundle.workScore < 13150 then
        (.err ("Withdrawal bundle has not received enough ACKs (" ++
               toString bundle.workScore ++ "/13150)"), self)
      else
        (.ok "8fa1d8c6fb1b6b6c2c6f3c9d0a90b1cc4694a1c2ad026771bd7972fe981479d", self)

/-- getWithdrawalBundleState: find by hash, not-found error otherwise. -/
def getWithdrawalBundleState (self : BIP300Service) (bundleHash : String) :
    BlockchainResponse WithdrawalBundle × BIP300Service :=
  match self.withdrawalBundles.find? (fun bundle => bundle.bundleHash == bundleHash) with
  | none =>
      (.err ("Withdrawal bundle with hash " ++ bundleHash ++ " not found"), self)
  | some bundle => (.ok bundle, self)

end BIP300Service

open BIP300Service

/-! Helper lemmas shared by the claim theorems. -/

theorem addAckAt_getElem_self (l : List WithdrawalBundle) (i : Nat) (c : Int) :
    (addAckAt l i c)[i]? =
      (l[i]?).map (fun b => { b with workScore := b.workScore + c }) := by
  induction l generalizing i with
  | nil => simp [addAckAt]
  | cons b bs ih =>
    cases i with
    | zero => simp [addAckAt]
    | succ i => simpa [addAckAt] using ih i

theorem addAckAt_getElem_ne (l : List WithdrawalBundle) (i j : Nat) (c : Int)
    (hij : j ≠ i) : (addAckAt l i c)[j]? = l[j]? := by
  induction l generalizing i j with
  | nil => simp [addAckAt]
  | cons b bs ih =>
    cases i with
    | zero =>
      cases j with
      | zero => exact absurd rfl hij
      | succ j => simp [addAckAt]
    | succ i =>
      cases j with
      | zero => simp [addAckAt]
      | succ j => simpa [addAckAt] using ih i j (fun h => hij (congrArg Nat.succ h))

theorem findIdx_hash_none_iff (l : List WithdrawalBundle) (bh : String) :
    l.findIdx? (fun b => b.bundleHash == bh) = none ↔ ∀ b ∈ l, b.bundleHash ≠ bh := by
  rw [List.findIdx?_eq_none_iff]
  constructor
  · intro h b hb
    have := h b hb
    simpa using this
  · intro h b hb
    simpa using h b hb

theorem append_ne_empty_right (a b : String) (h : b ≠ "") : a ++ b ≠ "" := by
  intro hc
  apply h
  have hd := congrArg String.data hc
  simp [String.data_append] at hd
  exact String.ext hd.2

/-- Claim C1 (counterexample): on the singleton's initial state, proposing a
second bundle for sidechain 0 (which already holds an in-progress bundle)
leaves the whole store as a plain append: the pre-existing bundle is
untouched (nothing is superseded — bundles carry no state at all) and the
newly inserted bundle has workScore 1, not 0. -/
theorem createWithdrawalBundleProposal_no_supersession_cex :
    (bip300Service.createWithdrawalBundleProposal 0 "ab").2.withdrawalBundles =
      mockWithdrawalBundles ++
        [{ sidechainNumber := 0, bundleHash := "ab", workScore := 1, blocksRemaining := 26299 }] ∧
    ((bip300Service.createWithdrawalBundleProposal 0 "ab").2.withdrawalBundles.find?
        (fun b => b.bundleHash == "ab")).map WithdrawalBundle.workScore ≠ some 0 ∧
    ((bip300Service.createWithdrawalBundleProposal 0 "ab").2.withdrawalBundles.find?
        (fun b => b.bundleHash ==
          "0000000000000000000000000000000000000000000000000000000000000001")) =
      some { sidechainNumber := 0,
             bundleHash := "0000000000000000000000000000000000000000000000000000000000000001",
             workScore := 5000, blocksRemaining := 10000 } := by
  refine ⟨rfl, ?_, by decide⟩
  decide

/-- Claim C1 (amended): createWithdrawalBundleProposal never modifies an
existing bundle — bundles have no state field, so no Active/Superseded
transition exists — and always succeeds, appending the new bundle with
workScore 1 (not 0) and blocksRemaining 26299. -/
theorem createWithdrawalBundleProposal_appends_workScore_one
    (self : BIP300Service) (sidechainNumber : Int) (bundleHash : String) :
    self.createWithdrawalBundleProposal sidechainNumber bundleHash =
      (.ok true,
       { self with withdrawalBundles :=
           self.withdrawalBundles ++
             [{ sidechainNumber := sidechainNumber, bundleHash := bundleHash,
                workScore := 1, blocksRemaining := 26299 }] }) := rfl

/-- Claim C2 (counterexample): from the singleton's initial state — which is
reachable, it is the constructed state — one proposal for sidechain 0 leaves
two stored bundles for sidechain 0; since bundles carry no state field, both
are in-progress (non-terminal), violating the single-active invariant. -/
theorem two_bundles_same_sidechain_cex :
    ((bip300Service.createWithdrawalBundleProposal 0 "ab").2.withdrawalBundles.countP
        (fun b => b.sidechainNumber == 0)) = 2 ∧
    ¬ (((bip300Service.createWithdrawalBundleProposal 0 "ab").2.withdrawalBundles.countP
        (fun b => b.sidechainNumber == 0)) ≤ 1) := by
  constructor
  · decide
  · decide

/-- Claim C2 (amended): no single-active invariant is enforced: every
proposal for a sidechain increases the number of stored bundles for that
sidechain by exactly one, retaining all existing ones, so several
in-progress bundles for one sidechain are reachable. -/
theorem proposal_increments_sidechain_bundle_count
    (self : BIP300Service) (sidechainNumber : Int) (bundleHash : String) :
    ((self.createWithdrawalBundleProposal sidechainNumber bundleHash).2.withdrawalBundles.countP
        (fun b => b.sidechainNumber == sidechainNumber)) =
      (self.withdrawalBundles.countP (fun b => b.sidechainNumber == sidechainNumber)) + 1 := by
  simp [createWithdrawalBundleProposal, List.countP_append, List.countP_cons]

/-- Claim C3 (counterexample): sidechain number 99 is not registered in the
singleton's state, yet createWithdrawalBundleProposal 99 succeeds and
inserts the bundle — no UnknownSidechain failure occurs. -/
theorem unknown_sidechain_accepted_cex :
    (bip300Service.sidechains.find? (fun sc => sc.escrowNumber == 99)) = none ∧
    (bip300Service.createWithdrawalBundleProposal 99 "ff").1 = .ok true ∧
    ((bip300Service.createWithdrawalBundleProposal 99 "ff").2.withdrawalBundles.find?
        (fun b => b.bundleHash == "ff")) =
      some { sidechainNumber := 99, bundleHash := "ff", workScore := 1,
             blocksRemaining := 26299 } := by
  refine ⟨by decide, rfl, by decide⟩

/-- Claim C3 (amended): createWithdrawalBundleProposal consults the sidechain
registry not at all: even when no registered sidechain carries the given
number — or none that does is active — the call succeeds and inserts the
bundle; no UnknownSidechain error path exists in the operation. -/
theorem proposal_ignores_sidechain_registry
    (self : BIP300Service) (sidechainNumber : Int) (bundleHash : String)
    (hn : self.sidechains.all
        (fun sc => !(sc.escrowNumber == sidechainNumber && sc.isActive)) = true) :
    (self.createWithdrawalBundleProposal sidechainNumber bundleHash).1 = .ok true ∧
    (self.createWithdrawalBundleProposal sidechainNumber bundleHash).2.withdrawalBundles =
      self.withdrawalBundles ++
        [{ sidechainNumber := sidechainNumber, bundleHash := bundleHash,
           workScore := 1, blocksRemaining := 26299 }] :=
  ⟨rfl, rfl⟩

/-- Witness for C3's amended theorem at the singleton state and the
unregistered sidechain number 99. -/
theorem proposal_ignores_sidechain_registry_witness :
    (bip300Service.sidechains.all
        (fun sc => !(sc.escrowNumber == 99 && sc.isActive)) = true) ∧
    ((bip300Service.createWithdrawalBundleProposal 99 "ff").1 = .ok true ∧
     (bip300Service.createWithdrawalBundleProposal 99 "ff").2.withdrawalBundles =
       bip300Service.withdrawalBundles ++
         [{ sidechainNumber := 99, bundleHash := "ff", workScore := 1,
            blocksRemaining := 26299 }]) :=
  ⟨by decide, proposal_ignores_sidechain_registry bip300Service 99 "ff" (by decide)⟩

/-- Claim C4 (counterexample): proposing the hash that the singleton's store
already holds for sidechain 0 succeeds and leaves two stored bundles with
that same (sidechainNumber, bundleHash) pair — no DuplicateBundle failure
occurs. -/
theorem duplicate_hash_accepted_cex :
    (bip300Service.createWithdrawalBundleProposal 0
        "0000000000000000000000000000000000000000000000000000000000000001").1 = .ok true ∧
    ((bip300Service.createWithdrawalBundleProposal 0
        "0000000000000000000000000000000000000000000000000000000000000001").2.withdrawalBundles.countP
        (fun b => b.sidechainNumber == 0 && b.bundleHash ==
          "0000000000000000000000000000000000000000000000000000000000000001")) = 2 := by
  refine ⟨rfl, by decide⟩

/-- Claim C4 (amended): createWithdrawalBundleProposal performs no duplicate
check: when the store already holds a bundle with the given sidechain number
and hash, the call still succeeds and inserts a second bundle with that same
hash, so the per-pair count grows by one and reaches at least two. -/
theorem proposal_allows_duplicate_hash
    (self : BIP300Service) (sidechainNumber : Int) (bundleHash : String)
    (hd : 1 ≤ self.withdrawalBundles.countP
        (fun b => b.sidechainNumber == sidechainNumber && b.bundleHash == bundleHash)) :
    (self.createWithdrawalBundleProposal sidechainNumber bundleHash).1 = .ok true ∧
    ((self.createWithdrawalBundleProposal sidechainNumber bundleHash).2.withdrawalBundles.countP
        (fun b => b.sidechainNumber == sidechainNumber && b.bundleHash == bundleHash)) =
      (self.withdrawalBundles.countP
        (fun b => b.sidechainNumber == sidechainNumber && b.bundleHash == bundleHash)) + 1 ∧
    2 ≤ ((self.createWithdrawalBundleProposal sidechainNumber bundleHash).2.withdrawalBundles.countP
        (fun b => b.sidechainNumber == sidechainNumber && b.bundleHash == bundleHash)) := by
  refine ⟨rfl, ?_, ?_⟩
  · simp [createWithdrawalBundleProposal, List.countP_append, List.countP_cons]
  · have heq :
        ((self.createWithdrawalBundleProposal sidechainNumber bundleHash).2.withdrawalBundles.countP
          (fun b => b.sidechainNumber == sidechainNumber && b.bundleHash == bundleHash)) =
        (self.withdrawalBundles.countP
          (fun b => b.sidechainNumber == sidechainNumber && b.bundleHash == bundleHash)) + 1 := by
      simp [createWithdrawalBundleProposal, List.countP_append, List.countP_cons]
    omega

/-- Witness for C4's amended theorem: the singleton state already stores the
hash ending in 1 for sidechain 0. -/
theorem proposal_allows_duplicate_hash_witness :
    (1 ≤ bip300Service.withdrawalBundles.countP
        (fun b => b.sidechainNumber == 0 && b.bundleHash ==
          "0000000000000000000000000000000000000000000000000000000000000001")) ∧
    ((bip300Service.createWithdrawalBundleProposal 0
        "0000000000000000000000000000000000000000000000000000000000000001").1 = .ok true ∧
     ((bip300Service.createWithdrawalBundleProposal 0
        "0000000000000000000000000000000000000000000000000000000000000001").2.withdrawalBundles.countP
        (fun b => b.sidechainNumber == 0 && b.bundleHash ==
          "0000000000000000000000000000000000000000000000000000000000000001")) =
      (bip300Service.withdrawalBundles.countP
        (fun b => b.sidechainNumber == 0 && b.bundleHash ==
          "0000000000000000000000000000000000000000000000000000000000000001")) + 1 ∧
     2 ≤ ((bip300Service.createWithdrawalBundleProposal 0
        "0000000000000000000000000000000000000000000000000000000000000001").2.withdrawalBundles.countP
        (fun b => b.sidechainNumber == 0 && b.bundleHash ==
          "0000000000000000000000000000000000000000000000000000000000000001"))) :=
  ⟨by decide,
   proposal_allows_duplicate_hash bip300Service 0
     "0000000000000000000000000000000000000000000000000000000000000001" (by decide)⟩

/-- Claim C5 (counterexample): on the singleton's state, one successful call
of simulateAckWithdrawalBundle with ackCount 2 moves the targeted bundle's
workScore from 5000 to 5002 — an increase of 2, not of exactly 1. -/
theorem ack_adds_ackCount_not_one_cex :
    (bip300Service.simulateAckWithdrawalBundle
        "0000000000000000000000000000000000000000000000000000000000000001" 2).1 = .ok true ∧
    ((bip300Service.withdrawalBundles.find?
        (fun b => b.bundleHash ==
          "0000000000000000000000000000000000000000000000000000000000000001")).map
        WithdrawalBundle.workScore) = some 5000 ∧
    (((bip300Service.simulateAckWithdrawalBundle
        "0000000000000000000000000000000000000000000000000000000000000001" 2).2.withdrawalBundles.find?
        (fun b => b.bundleHash ==
          "0000000000000000000000000000000000000000000000000000000000000001")).map
        WithdrawalBundle.workScore) = some 5002 ∧
    (5002 : Int) ≠ 5000 + 1 := by
  refine ⟨by decide, by decide, by decide, by decide⟩

/-- Claim C5 (amended): a successful simulateAckWithdrawalBundle call adds
exactly its ackCount argument (not necessarily 1) to the workScore of the
first stored bundle whose hash matches, and leaves every bundle at any other
index unchanged. -/
theorem simulateAck_adds_ackCount
    (self : BIP300Service) (bundleHash : String) (ackCount : Int) (i : Nat)
    (hi : self.withdrawalBundles.findIdx?
        (fun b => b.bundleHash == bundleHash) = some i) :
    (self.simulateAckWithdrawalBundle bundleHash ackCount).1 = .ok true ∧
    ((self.simulateAckWithdrawalBundle bundleHash ackCount).2.withdrawalBundles[i]?).map
        WithdrawalBundle.workScore =
      (self.withdrawalBundles[i]?).map (fun b => b.workScore + ackCount) ∧
    ∀ j, j ≠ i →
      (self.simulateAckWithdrawalBundle bundleHash ackCount).2.withdrawalBundles[j]? =
        self.withdrawalBundles[j]? := by
  refine ⟨?_, ?_, ?_⟩
  · simp [simulateAckWithdrawalBundle, hi]
  · simp only [simulateAckWithdrawalBundle, hi]
    rw [addAckAt_getElem_self]
    cases self.withdrawalBundles[i]? <;> rfl
  · intro j hj
    simp only [simulateAckWithdrawalBundle, hi]
    exact addAckAt_getElem_ne _ _ _ _ hj

/-- Witness for C5's amended theorem: the matching bundle sits at index 0 of
the singleton's store; an ACK with ackCount 2 raises its workScore by 2 and
leaves index 1 untouched. -/
theorem simulateAck_adds_ackCount_witness :
    (bip300Service.withdrawalBundles.findIdx?
        (fun b => b.bundleHash ==
          "0000000000000000000000000000000000000000000000000000000000000001") = some 0) ∧
    ((bip300Service.simulateAckWithdrawalBundle
        "0000000000000000000000000000000000000000000000000000000000000001" 2).1 = .ok true ∧
     ((bip300Service.simulateAckWithdrawalBundle
        "0000000000000000000000000000000000000000000000000000000000000001" 2).2.withdrawalBundles[0]?).map
        WithdrawalBundle.workScore =
       (bip300Service.withdrawalBundles[0]?).map (fun b => b.workScore + 2) ∧
     ∀ j, j ≠ 0 →
       (bip300Service.simulateAckWithdrawalBundle
        "0000000000000000000000000000000000000000000000000000000000000001" 2).2.withdrawalBundles[j]? =
         bip300Service.withdrawalBundles[j]?) :=
  ⟨by decide,
   simulateAck_adds_ackCount bip300Service
     "0000000000000000000000000000000000000000000000000000000000000001" 2 0 (by decide)⟩

/-- Claim C6: createWithdrawalTransaction succeeds only once the looked-up
bundle's workScore has reached the ACK threshold 13150: below the threshold
it returns the insufficient-ACKs failure (which carries no transaction id,
only an error message), at or above it the mock transaction id, and any
success entails that the bundle's workScore is at least 13150. -/
theorem createWithdrawalTransaction_requires_threshold
    (self : BIP300Service) (bundleHash : String) (bundle : WithdrawalBundle)
    (hb : self.withdrawalBundles.find?
        (fun b => b.bundleHash == bundleHash) = some bundle) :
    (bundle.workScore < 13150 →
      (self.createWithdrawalTransaction bundleHash).1 =
        .err ("Withdrawal bundle has not received enough ACKs (" ++
              toString bundle.workScore ++ "/13150)")) ∧
    (13150 ≤ bundle.workScore →
      (self.createWithdrawalTransaction bundleHash).1 =
        .ok "8fa1d8c6fb1b6b6c2c6f3c9d0a90b1cc4694a1c2ad026771bd7972fe981479d") ∧
    ((self.createWithdrawalTransaction bundleHash).1.isOk = true →
      13150 ≤ bundle.workScore) := by
  by_cases hlt : bundle.workScore < 13150
  · refine ⟨fun _ => ?_, fun hge => absurd hlt (not_lt.mpr hge), fun hok => ?_⟩
    · simp [createWithdrawalTransaction, hb, hlt]
    · exfalso
      have : (self.createWithdrawalTransaction bundleHash).1.isOk = false := by
        simp [createWithdrawalTransaction, hb, hlt, BlockchainResponse.isOk]
      rw [hok] at this
      exact Bool.noConfusion this
  · refine ⟨fun h => absurd h hlt, fun _ => ?_, fun _ => not_lt.mp hlt⟩
    simp [createWithdrawalTransaction, hb, hlt]

/-- Witness for C6's theorem, in both directions: on the singleton's state
the bundle scored 5000 yields the insufficient-ACKs failure, and on a state
holding a bundle with workScore exactly 13150 the call returns the mock
transaction id. -/
theorem createWithdrawalTransaction_requires_threshold_witness :
    ((bip300Service.withdrawalBundles.find?
        (fun b => b.bundleHash ==
          "0000000000000000000000000000000000000000000000000000000000000001") =
        some { sidechainNumber := 0,
               bundleHash := "0000000000000000000000000000000000000000000000000000000000000001",
               workScore := 5000, blocksRemaining := 10000 }) ∧
     (bip300Service.createWithdrawalTransaction
        "0000000000000000000000000000000000000000000000000000000000000001").1 =
       .err ("Withdrawal bundle has not received enough ACKs (" ++
             toString (5000 : Int) ++ "/13150)")) ∧
    ((({ network := .testnet, sidechains := [],
         withdrawalBundles :=
           [{ sidechainNumber := 0, bundleHash := "hh", workScore := 13150,
              blocksRemaining := 100 }] } : BIP300Service).withdrawalBundles.find?
        (fun b => b.bundleHash == "hh") =
        some { sidechainNumber := 0, bundleHash := "hh", workScore := 13150,
               blocksRemaining := 100 }) ∧
     (({ network := .testnet, sidechains := [],
         withdrawalBundles :=
           [{ sidechainNumber := 0, bundleHash := "hh", workScore := 13150,
              blocksRemaining := 100 }] } : BIP300Service).createWithdrawalTransaction "hh").1 =
       .ok "8fa1d8c6fb1b6b6c2c6f3c9d0a90b1cc4694a1c2ad026771bd7972fe981479d") :=
  ⟨⟨by decide,
    (createWithdrawalTransaction_requires_threshold bip300Service
      "0000000000000000000000000000000000000000000000000000000000000001"
      { sidechainNumber := 0,
        bundleHash := "0000000000000000000000000000000000000000000000000000000000000001",
        workScore := 5000, blocksRemaining := 10000 } (by decide)).1 (by decide)⟩,
   ⟨by decide,
    (createWithdrawalTransaction_requires_threshold
      { network := .testnet, sidechains := [],
        withdrawalBundles :=
          [{ sidechainNumber := 0, bundleHash := "hh", workScore := 13150,
             blocksRemaining := 100 }] } "hh"
      { sidechainNumber := 0, bundleHash := "hh", workScore := 13150,
        blocksRemaining := 100 } (by decide)).2.1 (by decide)⟩⟩

/-- Claim C7: simulateAckWithdrawalBundle fails exactly on absence of the
hash: when no stored bundle carries the given hash it returns (not throws)
the not-found error and leaves the state unchanged, and whenever some stored
bundle carries the hash the call succeeds. -/
theorem simulateAck_presence_dichotomy
    (self : BIP300Service) (bundleHash : String) (ackCount : Int) :
    ((∀ b ∈ self.withdrawalBundles, b.bundleHash ≠ bundleHash) →
      (self.simulateAckWithdrawalBundle bundleHash ackCount).1 =
        .err ("Withdrawal bundle with hash " ++ bundleHash ++ " not found") ∧
      (self.simulateAckWithdrawalBundle bundleHash ackCount).2 = self) ∧
    ((∃ b ∈ self.withdrawalBundles, b.bundleHash = bundleHash) →
      (self.simulateAckWithdrawalBundle bundleHash ackCount).1 = .ok true) := by
  constructor
  · intro habs
    have hnone : self.withdrawalBundles.findIdx?
        (fun b => b.bundleHash == bundleHash) = none :=
      (findIdx_hash_none_iff _ _).mpr habs
    constructor
    · simp [simulateAckWithdrawalBundle, hnone]
    · simp [simulateAckWithdrawalBundle, hnone]
  · intro hex
    rcases hex with ⟨b, hb, hbh⟩
    rcases hsome : self.withdrawalBundles.findIdx?
        (fun b => b.bundleHash == bundleHash) with _ | i
    · exact absurd hbh ((findIdx_hash_none_iff _ _).mp hsome b hb)
    · simp [simulateAckWithdrawalBundle, hsome]

/-- Witness for C7's theorem, in both directions: the hash zz is absent from
the singleton's store, so the ACK fails with the returned error and no state
change; the hash ending in 1 is present, so the ACK succeeds. -/
theorem simulateAck_presence_dichotomy_witness :
    (((bip300Service.simulateAckWithdrawalBundle "zz" 1).1 =
        .err ("Withdrawal bundle with hash " ++ "zz" ++ " not found") ∧
      (bip300Service.simulateAckWithdrawalBundle "zz" 1).2 = bip300Service) ∧
     (bip300Service.simulateAckWithdrawalBundle
        "0000000000000000000000000000000000000000000000000000000000000001" 1).1 = .ok true) :=
  ⟨(simulateAck_presence_dichotomy bip300Service "zz" 1).1 (by decide),
   (simulateAck_presence_dichotomy bip300Service
      "0000000000000000000000000000000000000000000000000000000000000001" 1).2
     (by decide)⟩

theorem structured_err_of_ne {α : Type} (m : String) (h : m ≠ "") :
    (BlockchainResponse.err m : BlockchainResponse α).structured = true := by
  simp [BlockchainResponse.structured, h]

/-- Claim C8: every response-returning public operation of the service, on
every state and every input, yields a structured result: either a success
carrying its data, or a failure carrying a non-empty error message — never
an exception (every operation is a total function into BlockchainResponse,
the embedding of the source's per-method try/catch that converts any fault
into a returned error). -/
theorem operations_return_structured_results
    (self : BIP300Service) (n amount feeRate ackCount : Int) (bundleHash : String) :
    (self.getSidechains).1.structured = true ∧
    (self.getSidechain n).1.structured = true ∧
    (self.getWithdrawalBundles).1.structured = true ∧
    (self.getWithdrawalBundlesForSidechain n).1.structured = true ∧
    (self.createDepositTransaction n amount feeRate).1.structured = true ∧
    (self.createWithdrawalBundleProposal n bundleHash).1.structured = true ∧
    (self.simulateAckWithdrawalBundle bundleHash ackCount).1.structured = true ∧
    (self.createWithdrawalTransaction bundleHash).1.structured = true ∧
    (self.getWithdrawalBundleState bundleHash).1.structured = true := by
  refine ⟨rfl, ?_, rfl, rfl, ?_, rfl, ?_, ?_, ?_⟩
  · rcases hfind : self.sidechains.find? (fun sc => sc.escrowNumber == n) with _ | sc
    · simp only [getSidechain, hfind]
      exact structured_err_of_ne _ (append_ne_empty_right _ " not found" (by decide))
    · simp [getSidechain, hfind, BlockchainResponse.structured]
  · rcases hfind : self.sidechains.find? (fun sc => sc.escrowNumber == n) with _ | sc
    · simp only [createDepositTransaction, getSidechain, hfind]
      exact structured_err_of_ne _ (append_ne_empty_right _ " not found" (by decide))
    · simp [createDepositTransaction, getSidechain, hfind, BlockchainResponse.structured]
  · rcases hfind : self.withdrawalBundles.findIdx?
        (fun b => b.bundleHash == bundleHash) with _ | i
    · simp only [simulateAckWithdrawalBundle, hfind]
      exact structured_err_of_ne _ (append_ne_empty_right _ " not found" (by decide))
    · simp [simulateAckWithdrawalBundle, hfind, BlockchainResponse.structured]
  · rcases hfind : self.withdrawalBundles.find?
        (fun b => b.bundleHash == bundleHash) with _ | b
    · simp only [createWithdrawalTransaction, hfind]
      exact structured_err_of_ne _ (append_ne_empty_right _ " not found" (by decide))
    · by_cases hlt : b.workScore < 13150
      · simp only [createWithdrawalTransaction, hfind, hlt, if_pos]
        exact structured_err_of_ne _ (append_ne_empty_right _ "/13150)" (by decide))
      · simp [createWithdrawalTransaction, hfind, hlt, BlockchainResponse.structured]
  · rcases hfind : self.withdrawalBundles.find?
        (fun b => b.bundleHash == bundleHash) with _ | b
    · simp only [getWithdrawalBundleState, hfind]
      exact structured_err_of_ne _ (append_ne_empty_right _ " not found" (by decide))
    · simp [getWithdrawalBundleState, hfind, BlockchainResponse.structured]

/-- Claim C9: every newly proposed withdrawal bundle starts with
blocksRemaining equal to the full deadline window of 26299 blocks: the
bundle that createWithdrawalBundleProposal appends at the end of the store
carries blocksRemaining = 26299. -/
theorem proposal_initial_blocksRemaining
    (self : BIP300Service) (sidechainNumber : Int) (bundleHash : String) :
    ((self.createWithdrawalBundleProposal sidechainNumber bundleHash).2.withdrawalBundles.getLast?).map
        WithdrawalBundle.blocksRemaining = some 26299 := by
  simp [createWithdrawalBundleProposal]

/-- Claim C10: the five read-only queries leave the service state unchanged
on every input, including the ones answered with a not-found error, and
getWithdrawalBundlesForSidechain answers with exactly the stored bundles
whose sidechainNumber equals its argument. -/
theorem queries_preserve_state_and_filter
    (self : BIP300Service) (n : Int) (bundleHash : String) :
    (self.getSidechains).2 = self ∧
    (self.getSidechain n).2 = self ∧
    (self.getWithdrawalBundles).2 = self ∧
    (self.getWithdrawalBundlesForSidechain n).2 = self ∧
    (self.getWithdrawalBundleState bundleHash).2 = self ∧
    (self.getWithdrawalBundlesForSidechain n).1 =
      .ok (self.withdrawalBundles.filter (fun b => b.sidechainNumber == n)) ∧
    (∀ b, b ∈ self.withdrawalBundles.filter (fun b => b.sidechainNumber == n) ↔
      (b ∈ self.withdrawalBundles ∧ b.sidechainNumber = n)) := by
  refine ⟨rfl, ?_, rfl, rfl, ?_, rfl, ?_⟩
  · rcases hfind : self.sidechains.find? (fun sc => sc.escrowNumber == n) with _ | sc <;>
      simp [getSidechain, hfind]
  · rcases hfind : self.withdrawalBundles.find?
        (fun b => b.bundleHash == bundleHash) with _ | b <;>
      simp [getWithdrawalBundleState, hfind]
  · intro b
    simp [List.mem_filter]

/-- Witness for C10's theorem at the singleton state, a sidechain number
whose query succeeds non-trivially (2) and a bundle hash that is absent, so
the not-found branch of getWithdrawalBundleState is the one exercised. -/
theorem queries_preserve_state_and_filter_witness :
    (bip300Service.getSidechains).2 = bip300Service ∧
    (bip300Service.getSidechain 2).2 = bip300Service ∧
    (bip300Service.getWithdrawalBundles).2 = bip300Service ∧
    (bip300Service.getWithdrawalBundlesForSidechain 2).2 = bip300Service ∧
    (bip300Service.getWithdrawalBundleState "zz").2 = bip300Service ∧
    (bip300Service.getWithdrawalBundlesForSidechain 2).1 =
      .ok (bip300Service.withdrawalBundles.filter (fun b => b.sidechainNumber == 2)) ∧
    (∀ b, b ∈ bip300Service.withdrawalBundles.filter (fun b => b.sidechainNumber == 2) ↔
      (b ∈ bip300Service.withdrawalBundles ∧ b.sidechainNumber = 2)) :=
  queries_preserve_state_and_filter bip300Service 2 "zz"
